import Mathlib

set_option maxRecDepth 8192

/-!
Verification of the HL7-over-MLLP ingestion service
(`srv/services/hl7Service.js`).

Strings are embedded as `List Char` (`Str`), and the JavaScript string
operations used by the service (`split` on a one-character separator,
`startsWith`, `includes`, `trim`, `indexOf`, `substring`, array indexing
with `|| ''` defaulting) are given as structurally recursive Lean
functions with the same semantics.  Each definition carries a comment
pointing at the source lines it embeds.
-/

namespace HL7

/-- Strings, embedded as lists of characters. -/
abbrev Str := List Char

/-- Coerce a Lean string literal to the embedding. -/
def str (s : String) : Str := s.data

/-- MLLP start-of-block byte `0x0B` (`<VT>`). -/
def vtChar : Char := '\x0b'

/-- First byte `0x1C` (`<FS>`) of the MLLP end marker. -/
def fsChar : Char := '\x1c'

/-- Carriage return, the HL7 segment separator and second MLLP end byte. -/
def crChar : Char := '\r'

/-- JS `s.split(sep)` for a one-character separator: splits into the
(possibly empty) pieces between occurrences of `sep`; `''.split(sep)`
is `['']`. -/
def splitOnChar (sep : Char) : Str → List Str
  | [] => [[]]
  | c :: rest =>
    match splitOnChar sep rest with
    | [] => if c = sep then [[], []] else [[c]]
    | s :: ss => if c = sep then [] :: s :: ss else (c :: s) :: ss

/-- JS `fields[i] || ''`: array indexing where an out-of-range index
(`undefined`) and an empty field both yield the empty string. -/
def fieldAt (fs : List Str) (i : Nat) : Str := fs.getD i []

/-- JS `s.trim()`: strip leading and trailing whitespace. -/
def trimChars (s : Str) : Str :=
  ((s.dropWhile Char.isWhitespace).reverse.dropWhile Char.isWhitespace).reverse

/-- JS `buffer.indexOf(pat)`: index of the first occurrence of the
pattern `pat` as a contiguous run, `none` when absent (JS `-1`). -/
def idxOfSub (pat : Str) : Str → Option Nat
  | [] => if pat = [] then some 0 else none
  | c :: rest =>
    if pat.isPrefixOf (c :: rest) then some 0
    else (idxOfSub pat rest).map (· + 1)

/-- `mapGender` (hl7Service.js lines 29-38): `!hl7Gender` (the empty
string) returns `null`; otherwise the upper-cased code is matched, with
`M`/`F` mapped and every other code — `O`, `U` and the `default`
case alike — mapped to `other`. -/
def mapGender (hl7Gender : Str) : Option Str :=
  if hl7Gender = [] then none
  else
    let u := hl7Gender.map Char.toUpper
    if u = str "M" then some (str "male")
    else if u = str "F" then some (str "female")
    else some (str "other")

/-- Segment splitting of `processHL7MessageManual` (lines 57-59):
normalize `\n` to `\r`, split on `\r`, keep lines that are non-empty
after trimming. -/
def splitSegments (message : Str) : List Str :=
  (splitOnChar '\r' (message.map (fun c => if c = '\n' then '\r' else c))).filter
    (fun s => (trimChars s).length > 0)

/-- `segments.find(s => s.startsWith(p))` as used for `MSH|`, `PID|`
and `OBR|` lookups (lines 61, 101, 140-141). -/
def findSegment (segments : List Str) (p : Str) : Option Str :=
  segments.find? (fun s => p.isPrefixOf s)

/-- Message-type extraction of lines 69-81: field 8 of the split `MSH`
segment, split on `^` into `(type, triggerEvent)` when a caret is
present, otherwise `(messageType, '')`. -/
def messageTypeOf (mshFields : List Str) : Str × Str :=
  let messageType := fieldAt mshFields 8
  if messageType.contains '^' then
    let parts := splitOnChar '^' messageType
    (fieldAt parts 0, fieldAt parts 1)
  else (messageType, [])

/-- The four routing outcomes of `processHL7MessageManual`
(lines 61-94). -/
inductive RouteResult
  | noMsh
  | adtPatient
  | ormOrder
  | unhandled
deriving DecidableEq, Repr

/-- Routing logic of `processHL7MessageManual` (lines 56-95): missing
`MSH|` segment is the only failure; `ADT` with trigger `A01`/`A08` goes
to the patient handler, `ORM`/`O01` to the order handler, anything
else is unhandled-but-acknowledged. -/
def routeMessage (message : Str) : RouteResult :=
  let segments := splitSegments message
  match findSegment segments (str "MSH|") with
  | none => RouteResult.noMsh
  | some mshSegment =>
    let tp := messageTypeOf (splitOnChar '|' mshSegment)
    if tp.1 = str "ADT" ∧ (tp.2 = str "A01" ∨ tp.2 = str "A08") then RouteResult.adtPatient
    else if tp.1 = str "ORM" ∧ tp.2 = str "O01" then RouteResult.ormOrder
    else RouteResult.unhandled

/-- Return value of `processHL7MessageManual` (lines 63-94): `false`
exactly when no `MSH|` segment is found, `true` in every other branch
(handled or not). -/
def processResult (message : Str) : Bool :=
  match routeMessage message with
  | RouteResult.noMsh => false
  | _ => true

/-- A row of the `patients` table as written by the service
(`INSERT OR REPLACE INTO patients (ssn, mobile_number, full_name,
date_of_birth, gender, address)`, lines 127-130).  `gender` is the
result of `mapGender`, which may be `null`. -/
structure PatientRow where
  ssn : Str
  mobile_number : Str
  full_name : Str
  date_of_birth : Str
  gender : Option Str
  address : Str
deriving DecidableEq, Repr

/-- Display-name derivation of `handleADTPatientManual` (lines 111-116):
when the PID-5 value contains a caret it is split on `^` and rebuilt as
`` `${nameParts[1] || ''} ${nameParts[0] || ''}`.trim() `` (the comment
in the source reads `LAST^FIRST^MIDDLE -> First Last`); otherwise the
raw field is used. -/
def deriveFullName (patientName : Str) : Str :=
  if patientName.contains '^' then
    let nameParts := splitOnChar '^' patientName
    trimChars (fieldAt nameParts 1 ++ ' ' :: fieldAt nameParts 0)
  else patientName

/-- `handleADTPatientManual` (lines 100-134), returning the row passed
to the `INSERT OR REPLACE`, or `none` when the handler returns without
writing.  PID fields 3/5/7/8/11 are read with `|| ''` defaulting; the
identifier guard is `!ssn || ssn.length !== 14`; `mobile_number` is
hard-coded to `'N/A'`. -/
def handleADTPatientManual (segments : List Str) : Option PatientRow :=
  match findSegment segments (str "PID|") with
  | none => none
  | some pidSegment =>
    let pidFields := splitOnChar '|' pidSegment
    let ssn := fieldAt pidFields 3
    let patientName := fieldAt pidFields 5
    let dob := fieldAt pidFields 7
    let gender := fieldAt pidFields 8
    let address := fieldAt pidFields 11
    let fullName := deriveFullName patientName
    let dbGender := mapGender gender
    if ssn = [] ∨ ssn.length ≠ 14 then none
    else some { ssn := ssn, mobile_number := str "N/A", full_name := fullName,
                date_of_birth := dob, gender := dbGender, address := address }

/-- The patient write performed for a whole message: the router
(lines 85-87) invokes `handleADTPatientManual` exactly for
`ADT^A01`/`ADT^A08`; no other path writes a patient. -/
def processPatientWrite (message : Str) : Option PatientRow :=
  match routeMessage message with
  | RouteResult.adtPatient => handleADTPatientManual (splitSegments message)
  | _ => none

/-- The `PID-3` value the Patient-Admit handler extracts (lines
101-105): field 3 of the first segment starting `PID|`, empty when no
such segment exists. -/
def adtPid3 (segments : List Str) : Str :=
  match findSegment segments (str "PID|") with
  | none => []
  | some pidSegment => fieldAt (splitOnChar '|' pidSegment) 3

/-- A row of the `patient_visits` table as inserted by
`handleORMOrderManual` (lines 167-172). -/
structure VisitRow where
  visit_id : Str
  patient_ssn : Str
  visit_status : Str
  primary_diagnosis : Str
  visit_type : Str
  department : Str
  created_by : Str
deriving DecidableEq, Repr

/-- `handleORMOrderManual` (lines 139-177), with the outcome of the
duplicate-check `db.get` callback made explicit: `dupErr` is the `err`
argument and `dupRow` the `row` argument of the callback on line 160.
The insert is skipped only under `!err && row` (line 161); the
procedure description is `procedureCode.split('^')[1] || procedureCode`
and the stored reason `reasonForExam || procedureDesc`.  Returns the
inserted row, `none` when nothing is inserted. -/
def handleORMOrderManual (segments : List Str) (dupErr : Option Str)
    (dupRow : Option Str) (visitId : Str) : Option VisitRow :=
  match findSegment segments (str "PID|"), findSegment segments (str "OBR|") with
  | some pidSegment, some obrSegment =>
    let pidFields := splitOnChar '|' pidSegment
    let obrFields := splitOnChar '|' obrSegment
    let ssn := fieldAt pidFields 3
    let procedureCode := fieldAt obrFields 4
    let procedureDesc :=
      if fieldAt (splitOnChar '^' procedureCode) 1 = [] then procedureCode
      else fieldAt (splitOnChar '^' procedureCode) 1
    let reasonForExam := fieldAt obrFields 13
    if ssn = [] ∨ ssn.length ≠ 14 then none
    else if dupErr = none ∧ dupRow ≠ none then none
    else some { visit_id := visitId, patient_ssn := ssn,
                visit_status := str "open",
                primary_diagnosis := if reasonForExam = [] then procedureDesc else reasonForExam,
                visit_type := str "outpatient", department := str "radiology",
                created_by := str "hl7-system" }
  | _, _ => none

/-- The patient identifier the order handler extracts and passes to the
duplicate-check query (lines 145-148, 160). -/
def ormSsn (segments : List Str) : Str :=
  match findSegment segments (str "PID|") with
  | none => []
  | some pidSegment => fieldAt (splitOnChar '|' pidSegment) 3

/-- The duplicate-check query of lines 156-160: the first stored visit
with this `patient_ssn`, `visit_status IN ('open', 'in_progress')` and
`created_by = 'hl7-system'`.  The `WHERE` clause carries no condition
on the reason/diagnosis column. -/
def findOpenHl7Visit (visits : List VisitRow) (ssn : Str) : Option VisitRow :=
  visits.find? (fun v =>
    v.patient_ssn == ssn &&
    (v.visit_status == str "open" || v.visit_status == str "in_progress") &&
    v.created_by == str "hl7-system")

/-- The order handler run against a visit store on the path where the
query succeeds (`err = null`): the callback receives the first matching
row of `findOpenHl7Visit` (lines 155-176). -/
def handleORMOrderWithStore (segments : List Str) (visits : List VisitRow)
    (visitId : Str) : Option VisitRow :=
  handleORMOrderManual segments none
    ((findOpenHl7Visit visits (ormSsn segments)).map (fun v => v.visit_id)) visitId

/-- `INSERT OR REPLACE` into `patients` (line 128): `ssn` is the table's
primary key (README schema: `ssn TEXT PRIMARY KEY`), so the whole row
with the same `ssn` is replaced. -/
def upsertPatient (store : List PatientRow) (r : PatientRow) : List PatientRow :=
  r :: store.filter (fun p => !(p.ssn == r.ssn))

/-- Lookup of a patient row by primary key. -/
def lookupPatient (store : List PatientRow) (ssn : Str) : Option PatientRow :=
  store.find? (fun p => p.ssn == ssn)

/-- ACK code selection of `sendAck` (line 186):
`success ? 'AA' : 'AE'`. -/
def ackCode (success : Bool) : Str := if success then str "AA" else str "AE"

/-- The unframed body of the ACK built by `sendAck` (line 189), with the
run-time timestamp and generated ACK control id as parameters:
`` MSH|^~\&|RAD|FACILITY|SENDER|FACILITY|${timestamp}||ACK|${ackId}|P|2.5\rMSA|${ackCode}|${messageId} ``. -/
def ackPayload (timestamp ackId : Str) (success : Bool) (messageId : Str) : Str :=
  str "MSH|^~\\&|RAD|FACILITY|SENDER|FACILITY|" ++ timestamp ++
  str "||ACK|" ++ ackId ++ str "|P|2.5" ++ crChar ::
  (str "MSA|" ++ ackCode success ++ '|' :: messageId)

/-- MLLP framing as written by `sendAck` (line 189) and expected by the
clients: `\x0b` + payload + `\x1c\r`. -/
def wrap (payload : Str) : Str := vtChar :: (payload ++ [fsChar, crChar])

/-- The full byte sequence `sendAck` writes to the socket (lines 182-191). -/
def ackMessage (timestamp ackId : Str) (success : Bool) (messageId : Str) : Str :=
  wrap (ackPayload timestamp ackId success messageId)

/-- Per-frame server behaviour (lines 235-241): `success` is the return
value of `processHL7Message`, and `sendAck(socket, success)` is called
without a third argument, so `messageId` is the declared default
`'MSG'` (line 182).  The inbound message's `MSH-10` is never read. -/
def serverProcessFrame (message timestamp ackId : Str) : Str :=
  ackMessage timestamp ackId (processResult message) (str "MSG")

/-- The control id (`MSH-10`, index 9 of the pipe-split header) of a
message — the value the spec says the ACK must reference. -/
def mshControlId (message : Str) : Str :=
  match findSegment (splitSegments message) (str "MSH|") with
  | none => []
  | some mshSegment => fieldAt (splitOnChar '|' mshSegment) 9

/-- The `MSA` segment of an unframed ACK payload, as a receiver would
read it back with the service's own segment conventions. -/
def msaSegmentOfPayload (payload : Str) : Str :=
  (findSegment (splitSegments payload) (str "MSA|")).getD []

/-- Per-frame server behaviour with the storage outcome of the handler's
repository operation made explicit (lines 127-133, 167-175 with
235-241): the `db.run`/`db.get` callbacks only log `err` (lines 131,
173) and nothing of the storage outcome flows into the `success` flag,
which `processHL7Message` has already returned when the callback runs.
`writeFailed` is therefore never consulted. -/
def serverAckGivenWriteOutcome (message : Str) (_writeFailed : Bool) : Str :=
  ackCode (processResult message)

/-- One iteration of the frame-extraction loop (lines 215-225, 244):
`vtIndex = buffer.indexOf('\x0b')`,
`fsIndex = buffer.indexOf('\x1c\r', vtIndex)` (modelled as a search in
`buffer.drop vtIndex`, shifted back by `vtIndex`); under the loop guard
`vtIndex >= 0 && fsIndex > vtIndex` the frame is
`buffer.substring(vtIndex + 1, fsIndex)` and the remaining buffer
`buffer.substring(fsIndex + 2)`. -/
def frameSplit (buf : Str) : Option (Str × Str) :=
  match idxOfSub [vtChar] buf with
  | none => none
  | some vt =>
    match idxOfSub [fsChar, crChar] (buf.drop vt) with
    | none => none
    | some k =>
      if 0 < k then
        some ((buf.drop (vt + 1)).take (vt + k - (vt + 1)), buf.drop (vt + k + 2))
      else none

/-- The frame-extraction loop of `socket.on('data', ...)` (lines
223-249): repeatedly split off the first complete MLLP frame until none
remains, returning the extracted frames in order together with the
remaining buffer.  Termination: each extracted frame removes at least
the end marker from the buffer. -/
def extractFrames (buf : Str) : List Str × Str :=
  match h : frameSplit buf with
  | none => ([], buf)
  | some (msg, rest) =>
    ((msg :: (extractFrames rest).1), (extractFrames rest).2)
termination_by buf.length
decreasing_by
  all_goals
  unfold frameSplit at h
  cases h1 : idxOfSub [vtChar] buf with
  | none => simp only [h1] at h; exact Option.noConfusion h
  | some vt =>
    simp only [h1] at h
    cases h2 : idxOfSub [fsChar, crChar] (buf.drop vt) with
    | none => simp only [h2] at h; exact Option.noConfusion h
    | some k =>
      simp only [h2] at h
      by_cases hk : 0 < k
      · rw [if_pos hk] at h
        have hbuf : buf ≠ [] := by
          intro hb
          rw [hb] at h1
          simp [idxOfSub] at h1
        have hrest : rest = buf.drop (vt + k + 2) := by
          have := (Option.some.injEq _ _).mp h
          exact (Prod.mk.injEq _ _ _ _ |>.mp this).2.symm
        have hlen : 0 < buf.length := List.length_pos.mpr hbuf
        rw [hrest, List.length_drop]
        omega
      · rw [if_neg hk] at h
        exact Option.noConfusion h

/-- The spec's concrete end-to-end `ADT^A01` scenario message
(spec §8 item 9), control id `MSG001`. -/
def adtScenarioMsg : Str :=
  str "MSH|^~\\&|S|F|RAD|F|20251005120000||ADT^A01|MSG001|P|2.5\rPID|1||26409301400274||AHMED^MOHAMED||19900101|M"

/-- The row the service actually writes for `adtScenarioMsg`. -/
def scenarioRow : PatientRow :=
  { ssn := str "26409301400274", mobile_number := str "N/A",
    full_name := str "MOHAMED AHMED", date_of_birth := str "19900101",
    gender := some (str "male"), address := [] }

/-- An `ADT^A01` whose PID-3 value has 14 characters but is not
numeric. -/
def adtNonDigitMsg : Str :=
  str "MSH|^~\\&|S|F|RAD|F|20251005120000||ADT^A01|MSG003|P|2.5\rPID|1||ABCDEFGHIJKLMN||DOE^JOHN||19900101|M"

/-- An `ADT^A01` whose PID-3 value has 13 characters. -/
def adtShortSsnMsg : Str :=
  str "MSH|^~\\&|S|F|RAD|F|20251005120000||ADT^A01|MSG004|P|2.5\rPID|1||2640930140027||DOE^JOHN||19900101|M"

/-- A message with no `MSH` segment at all. -/
def noMshMsg : Str :=
  str "PID|1||26409301400274||AHMED^MOHAMED||19900101|M"

/-- An `ORM^O01` whose OBR-13 (reason for exam) is `CHEST PAIN` and
whose OBR-4 is `RAD001^CHEST X-RAY^C4`. -/
def ormScenarioMsg : Str :=
  str "MSH|^~\\&|S|F|RAD|F|20251005120100||ORM^O01|MSG002|P|2.5\rPID|1||26409301400275||AHMED^MOHAMED||19900101|M\rOBR|1|ORDER001||RAD001^CHEST X-RAY^C4|||||||||CHEST PAIN"

/-- An open `hl7-system` visit for the same patient as
`ormScenarioMsg` but with a different reason string. -/
def otherReasonVisit : VisitRow :=
  { visit_id := str "V1", patient_ssn := str "26409301400275",
    visit_status := str "open", primary_diagnosis := str "KNEE MRI",
    visit_type := str "outpatient", department := str "radiology",
    created_by := str "hl7-system" }

/-- The visit row inserted for `ormScenarioMsg` under visit id `V2`. -/
def ormScenarioVisit : VisitRow :=
  { visit_id := str "V2", patient_ssn := str "26409301400275",
    visit_status := str "open", primary_diagnosis := str "CHEST PAIN",
    visit_type := str "outpatient", department := str "radiology",
    created_by := str "hl7-system" }

/-- The 14-numeric-characters test `^\d{14}$` the spec demands of
`PID-3`. -/
def matchesFourteenDigits (s : Str) : Bool :=
  s.length = 14 && s.all Char.isDigit


theorem isPrefixOf_pair_cons (a b c : Char) (xs : Str) :
    ([a, b]).isPrefixOf (c :: xs) = ((a == c) && ([b]).isPrefixOf xs) := by
  simp [List.isPrefixOf]

theorem idxOfSub_pair_append (a b : Char) (hba : ¬ b = a) :
    ∀ p : Str, idxOfSub [a, b] p = none →
      idxOfSub [a, b] (p ++ [a, b]) = some p.length := by
  intro p
  induction p with
  | nil =>
    intro _
    simp [idxOfSub, List.isPrefixOf]
  | cons c rest ih =>
    intro h
    rw [idxOfSub] at h
    by_cases hpre : ([a, b]).isPrefixOf (c :: rest)
    · rw [if_pos hpre] at h
      exact Option.noConfusion h
    · rw [if_neg hpre] at h
      have hrest : idxOfSub [a, b] rest = none := Option.map_eq_none.mp h
      have hpre2 : ¬ (([a, b]).isPrefixOf (c :: (rest ++ [a, b])) = true) := by
        intro hcon
        rw [isPrefixOf_pair_cons] at hcon
        have hac : a = c := eq_of_beq ((Bool.and_eq_true _ _).mp hcon).1
        have hb : ([b]).isPrefixOf (rest ++ [a, b]) = true :=
          ((Bool.and_eq_true _ _).mp hcon).2
        cases rest with
        | nil =>
          simp [List.isPrefixOf] at hb
          exact hba hb
        | cons d rest2 =>
          simp only [List.cons_append, List.isPrefixOf, Bool.and_eq_true,
            beq_iff_eq] at hb
          apply hpre
          rw [isPrefixOf_pair_cons]
          simp [List.isPrefixOf, hac, hb.1]
      rw [List.cons_append, idxOfSub, if_neg hpre2, ih hrest]
      rfl

theorem extractFrames_of_none (buf : Str) (h : frameSplit buf = none) :
    extractFrames buf = ([], buf) := by
  rw [extractFrames, h]

theorem extractFrames_of_some (buf msg rest : Str)
    (h : frameSplit buf = some (msg, rest)) :
    extractFrames buf = (msg :: (extractFrames rest).1, (extractFrames rest).2) := by
  rw [extractFrames, h]

theorem frameSplit_nil : frameSplit [] = none := by
  simp [frameSplit, idxOfSub]

theorem frameSplit_wrap (p : Str)
    (hend : idxOfSub [fsChar, crChar] p = none) :
    frameSplit (wrap p) = some (p, []) := by
  have h1 : idxOfSub [vtChar] (wrap p) = some 0 := by
    rw [wrap, idxOfSub, if_pos (by simp [List.isPrefixOf])]
  have h2 : idxOfSub [fsChar, crChar] ((wrap p).drop 0) = some (p.length + 1) := by
    rw [List.drop_zero, wrap, idxOfSub]
    have hnp : ¬ (([fsChar, crChar]).isPrefixOf (vtChar :: (p ++ [fsChar, crChar])) = true) := by
      rw [isPrefixOf_pair_cons]
      simp [fsChar, vtChar]
    rw [if_neg hnp, idxOfSub_pair_append fsChar crChar (by decide) p hend]
    rfl
  have hmsg : ((wrap p).drop (0 + 1)).take (0 + (p.length + 1) - (0 + 1)) = p := by
    rw [wrap]
    simp
  have hrest : (wrap p).drop (0 + (p.length + 1) + 2) = [] := by
    apply List.drop_eq_nil_of_le
    simp [wrap]
  rw [frameSplit]
  simp only [h1, h2, if_pos (Nat.succ_pos p.length), hmsg, hrest]

theorem extractFrames_wrap (p : Str)
    (hend : idxOfSub [fsChar, crChar] p = none) :
    extractFrames (wrap p) = ([p], []) := by
  rw [extractFrames_of_some (wrap p) p [] (frameSplit_wrap p hend),
    extractFrames_of_none [] frameSplit_nil]

theorem processResult_eq_isSome (message : Str) :
    processResult message =
      (findSegment (splitSegments message) (str "MSH|")).isSome := by
  unfold processResult routeMessage
  cases h : findSegment (splitSegments message) (str "MSH|") with
  | none => simp [h]
  | some mshSegment =>
    simp only [h, Option.isSome_some]
    split
    · rename_i heq
      split at heq
      · exact RouteResult.noConfusion heq
      · split at heq <;> exact RouteResult.noConfusion heq
    · rfl

theorem splitOnChar_ne_nil (sep : Char) (s : Str) : splitOnChar sep s ≠ [] := by
  cases s with
  | nil => simp [splitOnChar]
  | cons c rest =>
    rw [splitOnChar]
    cases h : splitOnChar sep rest with
    | nil => by_cases hc : c = sep <;> simp [hc]
    | cons s ss => by_cases hc : c = sep <;> simp [hc]

theorem splitOnChar_not_mem (sep : Char) (s : Str) (h : sep ∉ s) :
    splitOnChar sep s = [s] := by
  induction s with
  | nil => rfl
  | cons c rest ih =>
    have hc : ¬ c = sep := fun e => h (by simp [e])
    have hr := ih (fun hm => h (List.mem_cons_of_mem _ hm))
    simp only [splitOnChar, hr, if_neg hc]

theorem splitOnChar_sep_append (sep : Char) (f t : Str) (hf : sep ∉ f) :
    splitOnChar sep (f ++ sep :: t) = f :: splitOnChar sep t := by
  induction f with
  | nil =>
    simp only [List.nil_append, splitOnChar]
    cases h : splitOnChar sep t with
    | nil => exact absurd h (splitOnChar_ne_nil sep t)
    | cons s ss => simp
  | cons c f' ih =>
    have hc : ¬ c = sep := fun e => hf (by simp [e])
    have hf' : sep ∉ f' := fun hm => hf (List.mem_cons_of_mem _ hm)
    simp only [List.cons_append, splitOnChar, List.append_eq, ih hf', if_neg hc]

theorem deriveFullName_family_given (f g : Str) (hf : '^' ∉ f) (hg : '^' ∉ g) :
    deriveFullName (f ++ '^' :: g) = trimChars (g ++ ' ' :: f) := by
  have hcont : (f ++ '^' :: g).contains '^' = true := by simp
  unfold deriveFullName
  rw [if_pos hcont, splitOnChar_sep_append '^' f g hf, splitOnChar_not_mem '^' g hg]
  rfl

/-- C1, counterexample: for the inbound `ADT^A01` whose control id
(`MSH-10`) is `MSG001`, the ACK the server writes is the fixed template
with `MSA|AA|MSG` — the MSA segment's third field is the default
placeholder `MSG` of `sendAck`, not `MSG001`. -/
theorem ack_fixed_control_id_counterexample :
    mshControlId adtScenarioMsg = str "MSG001" ∧
    serverProcessFrame adtScenarioMsg (str "20251005120000") (str "ACK1759665600000") =
      wrap (ackPayload (str "20251005120000") (str "ACK1759665600000") true (str "MSG")) ∧
    fieldAt (splitOnChar '|' (msaSegmentOfPayload
      (ackPayload (str "20251005120000") (str "ACK1759665600000") true (str "MSG")))) 2
      = str "MSG" ∧
    str "MSG" ≠ str "MSG001" := by
  decide

/-- C1 (amended): the ACK written back for every inbound frame contains
an MSA segment of the form `MSA|<AA|AE>|MSG` — the third field is the
constant default `'MSG'` of `sendAck` (the call sites never pass the
inbound control id), independent of the original message. -/
theorem ack_control_id_is_constant (message timestamp ackId : Str) :
    ∃ pre : Str, serverProcessFrame message timestamp ackId =
      vtChar :: (pre ++ (str "MSA|" ++ ackCode (processResult message) ++ '|' :: str "MSG")
        ++ [fsChar, crChar]) := by
  refine ⟨str "MSH|^~\\&|RAD|FACILITY|SENDER|FACILITY|" ++ timestamp ++ str "||ACK|"
    ++ ackId ++ str "|P|2.5" ++ [crChar], ?_⟩
  simp [serverProcessFrame, ackMessage, wrap, ackPayload, List.append_assoc]

/-- C2, counterexample: the PID-3 value `ABCDEFGHIJKLMN` has 14
characters but is not numeric (`^\d{14}$` fails), yet the Patient-Admit
handler performs a repository write for it — the source only checks
`ssn.length !== 14`. -/
theorem pid3_nondigit_write_counterexample :
    adtPid3 (splitSegments adtNonDigitMsg) = str "ABCDEFGHIJKLMN" ∧
    matchesFourteenDigits (str "ABCDEFGHIJKLMN") = false ∧
    routeMessage adtNonDigitMsg = RouteResult.adtPatient ∧
    processPatientWrite adtNonDigitMsg ≠ none := by
  decide

/-- C2 (amended): the Patient-Admit handler performs no repository
write whenever the PID-3 value does not have exactly 14 characters; the
check is length-only, so 14 non-digit characters are accepted. -/
theorem pid3_length_only_validation (message : Str)
    (h : (adtPid3 (splitSegments message)).length ≠ 14) :
    processPatientWrite message = none := by
  have hmain : handleADTPatientManual (splitSegments message) = none := by
    unfold handleADTPatientManual
    cases hp : findSegment (splitSegments message) (str "PID|") with
    | none => rfl
    | some pid =>
      have hssn : adtPid3 (splitSegments message) = fieldAt (splitOnChar '|' pid) 3 := by
        unfold adtPid3
        rw [hp]
      rw [hssn] at h
      simp only []
      rw [if_pos (Or.inr h)]
  unfold processPatientWrite
  cases hr : routeMessage message with
  | adtPatient => exact hmain
  | noMsh => rfl
  | ormOrder => rfl
  | unhandled => rfl

/-- C2, witness for the amended theorem at a 13-character PID-3. -/
theorem pid3_length_only_validation_witness :
    processPatientWrite adtShortSsnMsg = none :=
  pid3_length_only_validation adtShortSsnMsg (by decide)

/-- C3, counterexample: an existing open `hl7-system` visit whose
reason string `KNEE MRI` differs from the incoming order's derived
reason `CHEST PAIN` still suppresses creation — the duplicate-check
query has no reason condition, contradicting the claim that a pending
open visit with a different reason does not suppress creation. -/
theorem visit_dup_reason_counterexample :
    otherReasonVisit.patient_ssn = ormSsn (splitSegments ormScenarioMsg) ∧
    otherReasonVisit.visit_status = str "open" ∧
    otherReasonVisit.created_by = str "hl7-system" ∧
    otherReasonVisit.primary_diagnosis = str "KNEE MRI" ∧
    handleORMOrderWithStore (splitSegments ormScenarioMsg) [] (str "V2")
      = some ormScenarioVisit ∧
    ormScenarioVisit.primary_diagnosis = str "CHEST PAIN" ∧
    str "KNEE MRI" ≠ str "CHEST PAIN" ∧
    handleORMOrderWithStore (splitSegments ormScenarioMsg) [otherReasonVisit] (str "V2")
      = none := by
  decide

/-- C3 (amended): for an `ORM^O01` with PID and OBR segments and a
14-character identifier, visit creation is suppressed exactly when the
repository holds some visit with the same patient identifier, status in
`{open, in_progress}` and `created_by = 'hl7-system'` — the reason
string plays no role in the duplicate check. -/
theorem visit_dup_suppression_ignores_reason (segments : List Str)
    (visits : List VisitRow) (visitId : Str)
    (hpid : (findSegment segments (str "PID|")).isSome = true)
    (hobr : (findSegment segments (str "OBR|")).isSome = true)
    (hssn : (ormSsn segments).length = 14) :
    (handleORMOrderWithStore segments visits visitId = none ↔
      (findOpenHl7Visit visits (ormSsn segments)).isSome = true) := by
  obtain ⟨pid, hp⟩ := Option.isSome_iff_exists.mp hpid
  obtain ⟨obr, ho⟩ := Option.isSome_iff_exists.mp hobr
  have hs : ormSsn segments = fieldAt (splitOnChar '|' pid) 3 := by
    unfold ormSsn
    rw [hp]
  rw [hs] at hssn
  unfold handleORMOrderWithStore handleORMOrderManual
  simp only [hp, ho]
  have hc1 : ¬ (fieldAt (splitOnChar '|' pid) 3 = [] ∨
      (fieldAt (splitOnChar '|' pid) 3).length ≠ 14) := by
    push_neg
    refine ⟨?_, hssn⟩
    intro hnil
    rw [hnil] at hssn
    simp at hssn
  rw [if_neg hc1]
  cases hfd : findOpenHl7Visit visits (ormSsn segments) with
  | none => simp [hfd]
  | some v => simp [hfd]

/-- C3, witness for the amended theorem: with an empty visit store the
incoming order is not suppressed. -/
theorem visit_dup_suppression_ignores_reason_witness :
    (handleORMOrderWithStore (splitSegments ormScenarioMsg) [] (str "V2") = none ↔
      (findOpenHl7Visit [] (ormSsn (splitSegments ormScenarioMsg))).isSome = true) :=
  visit_dup_suppression_ignores_reason (splitSegments ormScenarioMsg) [] (str "V2")
    (by decide) (by decide) (by decide)

/-- C4, counterexample: a valid `ADT^A01` whose repository write is
attempted and fails still gets the positive `AA` acknowledgment — the
`db.run` callback only logs the error, which never reaches the ACK. -/
theorem repo_error_ack_counterexample :
    processPatientWrite adtScenarioMsg ≠ none ∧
    serverAckGivenWriteOutcome adtScenarioMsg true = str "AA" ∧
    str "AA" ≠ str "AE" := by
  decide

/-- C4 (amended): the ACK code is independent of the storage outcome of
the handler's repository operation; it is `AA` exactly when an `MSH|`
segment is present, `AE` otherwise, whether or not the write failed
(the error is only logged, and the connection is not closed by the
processing path). -/
theorem ack_independent_of_storage (message : Str) (writeFailed : Bool) :
    serverAckGivenWriteOutcome message writeFailed =
      (if (findSegment (splitSegments message) (str "MSH|")).isSome
        then str "AA" else str "AE") := by
  unfold serverAckGivenWriteOutcome ackCode
  rw [processResult_eq_isSome]

/-- C5 (confirmed): a syntactically valid `ADT^A01` with a 14-digit
PID-3 yields an `AA` ACK, a message with no `MSH` segment yields an
`AE` ACK, and in general the ACK code is the deterministic function of
the input that answers `AA` exactly when an `MSH|` segment exists. -/
theorem ack_code_correctness :
    ackCode (processResult adtScenarioMsg) = str "AA" ∧
    ackCode (processResult noMshMsg) = str "AE" ∧
    ∀ message : Str, ackCode (processResult message) =
      (if (findSegment (splitSegments message) (str "MSH|")).isSome
        then str "AA" else str "AE") := by
  refine ⟨by decide, by decide, ?_⟩
  intro message
  unfold ackCode
  rw [processResult_eq_isSome]

/-- C6, counterexample: for PID-5 `AHMED^MOHAMED` the stored name is
`MOHAMED AHMED` (the code swaps to `First Last` order), not
`AHMED MOHAMED`; and the `AA` ACK's MSA segment references `MSG`, not
the control id `MSG001`. -/
theorem name_order_counterexample :
    processPatientWrite adtScenarioMsg = some scenarioRow ∧
    scenarioRow.full_name = str "MOHAMED AHMED" ∧
    str "MOHAMED AHMED" ≠ str "AHMED MOHAMED" ∧
    mshControlId adtScenarioMsg = str "MSG001" ∧
    fieldAt (splitOnChar '|' (msaSegmentOfPayload (ackPayload (str "20251005120000")
      (str "ACK1") (processResult adtScenarioMsg) (str "MSG")))) 2 ≠ str "MSG001" := by
  decide

/-- C6 (amended): for a PID-5 of the form `Family^Given` the stored
display name is the given and family components joined by a single
space in that order, trimmed; concretely the scenario message upserts
identifier `26409301400274`, name `MOHAMED AHMED`, sex male, dob
`19900101`, with an `AA` ACK whose MSA third field is the fixed
`MSG`. -/
theorem name_order_amended :
    (∀ f g : Str, '^' ∉ f → '^' ∉ g →
      deriveFullName (f ++ '^' :: g) = trimChars (g ++ ' ' :: f)) ∧
    processPatientWrite adtScenarioMsg = some scenarioRow ∧
    ackCode (processResult adtScenarioMsg) = str "AA" ∧
    fieldAt (splitOnChar '|' (msaSegmentOfPayload (ackPayload (str "20251005120000")
      (str "ACK1") (processResult adtScenarioMsg) (str "MSG")))) 2 = str "MSG" := by
  exact ⟨deriveFullName_family_given, by decide, by decide, by decide⟩

/-- C6, witness for the general component of the amended theorem. -/
theorem name_order_amended_witness :
    deriveFullName (str "AHMED" ++ '^' :: str "MOHAMED") =
      trimChars (str "MOHAMED" ++ ' ' :: str "AHMED") :=
  name_order_amended.1 (str "AHMED") (str "MOHAMED") (by decide) (by decide)

/-- C7, counterexample: the empty PID-8 string maps to `null` (`!hl7Gender`
returns early), not to `other` as claimed. -/
theorem mapGender_empty_counterexample :
    mapGender [] = none ∧ (none : Option Str) ≠ some (str "other") := by
  decide

/-- C7 (amended): `M` maps to male and `F` to female (case-insensitively),
every other non-empty code — `O`, `U`, unrecognized — maps to `other`,
and the empty string maps to `null` (no gender stored). -/
theorem mapGender_amended :
    mapGender [] = none ∧
    (∀ g : Str, g ≠ [] → g.map Char.toUpper = str "M" →
      mapGender g = some (str "male")) ∧
    (∀ g : Str, g ≠ [] → g.map Char.toUpper = str "F" →
      mapGender g = some (str "female")) ∧
    (∀ g : Str, g ≠ [] → g.map Char.toUpper ≠ str "M" → g.map Char.toUpper ≠ str "F" →
      mapGender g = some (str "other")) := by
  refine ⟨by decide, ?_, ?_, ?_⟩
  · intro g hne hM
    unfold mapGender
    rw [if_neg hne]
    simp [hM]
  · intro g hne hF
    unfold mapGender
    rw [if_neg hne]
    simp only [hF]
    rw [if_neg (by decide)]
    simp
  · intro g hne hM hF
    unfold mapGender
    rw [if_neg hne]
    simp only []
    rw [if_neg hM, if_neg hF]

/-- C7, witness: the unrecognized non-empty code `X` maps to `other`. -/
theorem mapGender_amended_witness :
    mapGender (str "X") = some (str "other") :=
  mapGender_amended.2.2.2 (str "X") (by decide) (by decide) (by decide)

/-- C8 (confirmed): for every payload containing neither the MLLP start
byte `0x0B` nor the end marker `0x1C 0x0D`, extracting frames from the
MLLP-wrapped payload yields exactly that payload with an empty
remaining buffer. -/
theorem mllp_framing_roundtrip (p : Str) (hvt : vtChar ∉ p)
    (hend : idxOfSub [fsChar, crChar] p = none) :
    extractFrames (wrap p) = ([p], []) :=
  extractFrames_wrap p hend

/-- C8, witness at a concrete payload. -/
theorem mllp_framing_roundtrip_witness :
    extractFrames (wrap (str "MSH|TEST")) = ([str "MSH|TEST"], []) :=
  mllp_framing_roundtrip (str "MSH|TEST") (by decide) (by decide)

/-- C9 (confirmed): every row the Patient-Admit handler writes has
`mobile_number = 'N/A'`, and since the write is an `INSERT OR REPLACE`
keyed by `ssn`, after the upsert the stored record for that identifier
is exactly the written row — any previously stored mobile number is
replaced by `'N/A'`. -/
theorem patient_write_mobile_number_na (segments : List Str) (r : PatientRow)
    (h : handleADTPatientManual segments = some r) :
    r.mobile_number = str "N/A" ∧
    ∀ store : List PatientRow,
      lookupPatient (upsertPatient store r) r.ssn = some r := by
  constructor
  · unfold handleADTPatientManual at h
    cases hp : findSegment segments (str "PID|") with
    | none => rw [hp] at h; exact Option.noConfusion h
    | some pid =>
      rw [hp] at h
      simp only [] at h
      split at h
      · exact Option.noConfusion h
      · cases Option.some.inj h
        rfl
  · intro store
    unfold lookupPatient upsertPatient
    simp [List.find?]

/-- C9, witness at the concrete scenario message with an empty store. -/
theorem patient_write_mobile_number_na_witness :
    scenarioRow.mobile_number = str "N/A" ∧
    lookupPatient (upsertPatient [] scenarioRow) scenarioRow.ssn = some scenarioRow :=
  ⟨(patient_write_mobile_number_na (splitSegments adtScenarioMsg) scenarioRow (by decide)).1,
    (patient_write_mobile_number_na (splitSegments adtScenarioMsg) scenarioRow (by decide)).2 []⟩

/-- C10 (confirmed): when the duplicate-check query reports an error
(`err` non-null), the order handler behaves exactly as if no duplicate
existed — `!err && row` is false, so it falls through to the insert;
concretely an `ORM^O01` with a query error and even a reported
duplicate row still inserts the new visit. -/
theorem orm_insert_despite_query_error :
    (∀ (segments : List Str) (e : Str) (dupRow : Option Str) (visitId : Str),
      handleORMOrderManual segments (some e) dupRow visitId =
        handleORMOrderManual segments none none visitId) ∧
    handleORMOrderManual (splitSegments ormScenarioMsg) (some (str "SQLITE_BUSY"))
      (some (str "V1")) (str "V2") = some ormScenarioVisit := by
  constructor
  · intro segments e dupRow visitId
    unfold handleORMOrderManual
    cases hp : findSegment segments (str "PID|") <;>
      cases ho : findSegment segments (str "OBR|") <;>
      simp
  · decide

end HL7
